import Mathlib

/-!
Shallow embedding of the cognitive-cities core (port/cognitive.c).

Modelling conventions:
- Plan 9 `ulong` fields are modelled as `Nat`.  The only site where a C
  unsigned value can underflow on reachable states is the `current_load--`
  in `receive_neural_message`; that decrement is modelled with the exact
  32-bit wrap (`4294967295` when the load is 0).  Increments are modelled
  as unbounded `Nat` (a 2^32-message queue is not realizable in memory).
- `time_t` values are modelled as `Int` and passed explicitly as a `t`
  parameter to the operations that call `time(NULL)`.
- C `float`/`double` arithmetic is modelled exactly over `ℚ`:
  the float literal `0.1` stored in `adaptation_rate` has exact value
  13421773/134217728; the comparison `load_ratio > 0.8` (a `float`
  quotient compared against the `double` constant 0.8) is resolved to an
  exact integer inequality below (see `loadRatioHigh`).
- Pointers: each C function that accepts possibly-nil pointers is
  modelled as a function on `Option` mirroring the nil checks, returning
  its result code together with the (possibly updated) state; the non-nil
  body is factored into a `...Core` function on the plain state.
- `malloc`/`realloc` are assumed to succeed; the allocation-failure early
  returns are not modelled.
- The `NeuralMessage.next` intrusive pointer is modelled by the position
  of the message in the channel's `message_queue` list.
-/

/-- Mirrors `struct NeuralMessage` of port/cognitive.c (the `next` queue
linkage is modelled by list position; `void *cognitive_payload` is an
opaque token). -/
structure NeuralMessage where
  tag : Nat
  type : Nat
  source_domain : String
  target_domain : String
  swarm_id : String
  cognitive_priority : Nat
  timestamp : Int
  payload_size : Nat
  cognitive_payload : Nat
  confidence_level : ℚ
  deriving Repr, DecidableEq

/-- Mirrors `struct NeuralChannel` of port/cognitive.c (the embedded Plan 9
`Chan` and the `queue_lock` carry no modelled state; the queue is the list
of pending messages, head first). -/
structure NeuralChannel where
  channel_id : String
  source_domain : String
  target_domain : String
  bandwidth_capacity : Nat
  current_load : Nat
  adaptation_rate : ℚ
  last_evolution : Int
  message_queue : List NeuralMessage
  deriving Repr, DecidableEq

/-- Mirrors `struct EmergentPattern` (the `involved_domains` array plus
`domain_count` become one list). -/
structure EmergentPattern where
  pattern_id : String
  pattern_name : String
  description : String
  first_observed : Int
  last_observed : Int
  observation_count : Nat
  significance_score : ℚ
  involved_domains : List String
  deriving Repr, DecidableEq

/-- Mirrors `struct CognitiveNamespace` (the `channels` array plus
`channel_count` become one list, likewise `patterns`; `adaptation_lock`
carries no modelled state).  The C array holds pointers, so a channel
bound into two namespaces is shared; the claims settled here do not
depend on that aliasing, and the model gives each binding its own copy. -/
structure CognitiveNamespace where
  domain : String
  namespace_path : String
  cognitive_load : Nat
  last_adaptation : Int
  channels : List NeuralChannel
  patterns : List EmergentPattern
  deriving Repr, DecidableEq

/-- Mirrors `struct CognitiveSwarm` (`Pgrp*` and the `Proc **agents` array
carry no state read by the modelled operations; only `agent_count` is
read by `calculate_swarm_coherence`). -/
structure CognitiveSwarm where
  swarm_id : String
  domain : String
  agent_count : Nat
  coordination_channel : Option NeuralChannel
  coherence_level : ℚ
  creation_time : Int
  deriving Repr, DecidableEq

/-- Exact value of the C `float` literal `0.1` stored by
`create_neural_channel` into `adaptation_rate`: rounding 1/10 to 24
significand bits gives 13421773 * 2^-27. -/
def floatPointOne : ℚ := 13421773 / 134217728

/-- 2^32, the modulus of Plan 9 `ulong`. -/
def ulongMod : Nat := 4294967296

/-- Mirrors `create_neural_channel` (allocation assumed to succeed; the
`smprint` channel id is reproduced textually; `t` models `time(NULL)`). -/
def create_neural_channel (source_domain target_domain : String) (bandwidth : Nat)
    (t : Int) : NeuralChannel :=
  { channel_id := source_domain ++ "-" ++ target_domain ++ "-" ++ toString t
    source_domain := source_domain
    target_domain := target_domain
    bandwidth_capacity := bandwidth
    current_load := 0
    adaptation_rate := floatPointOne
    last_evolution := t
    message_queue := [] }

/-- Exact model of the C condition `load_ratio > 0.8` in
`adapt_neural_channel_capacity`, where
`load_ratio = (float)current_load / bandwidth_capacity`.

Derivation (IEEE 754, both operands converted exactly for values < 2^24,
division correctly rounded to `float`, then the comparison promotes to
`double`):
- `cap = 0, load > 0`: the quotient is +infinity, and +inf > 0.8 holds;
- `cap = 0, load = 0`: the quotient is NaN, and NaN > 0.8 is false;
- `cap > 0`: the `double` constant 0.8 is 0.8000000000000000444...,
  which lies strictly between the two neighbouring `float` values
  f1 = 13421772/2^24 and f2 = 13421773/2^24, so the comparison holds
  iff the rounded quotient is at least f2, i.e. iff the exact quotient
  exceeds the rounding midpoint (f1+f2)/2 = 26843545/2^25 (the exact
  midpoint ties to the even mantissa f1, hence the strict inequality):
  `load/cap > 26843545/33554432`, i.e. `26843545*cap < 33554432*load`.
  In particular the condition is TRUE at load/cap exactly 4/5.
The integer form is exact for `load, cap < 2^24`; beyond that the
conversions to `float` round and the model is not claimed faithful. -/
def loadRatioHigh (load cap : Nat) : Bool :=
  if cap = 0 then decide (load ≠ 0)
  else decide (26843545 * cap < 33554432 * load)

/-- Exact model of `new_capacity = bandwidth_capacity * (1.0 + adaptation_rate)`
followed by the assignment back into the `ulong` field: the product is
computed in `double` (exact for `cap * 147639501 < 2^53`, i.e. cap up to
about 6*10^7, with `rate = floatPointOne`) and converted to `ulong` by
truncation toward zero, i.e. the floor for a non-negative product. -/
def adaptedCapacity (cap : Nat) (rate : ℚ) : Nat :=
  (⌊(cap : ℚ) * (1 + rate)⌋).toNat

/-- Body of `adapt_neural_channel_capacity` for a non-nil channel:
if the load ratio is high, grow the capacity, stamp `last_evolution`,
and return 0; otherwise return -1 leaving the channel unchanged. -/
def adaptCapacityCore (nc : NeuralChannel) (t : Int) : Int × NeuralChannel :=
  if loadRatioHigh nc.current_load nc.bandwidth_capacity then
    (0, { nc with
          bandwidth_capacity := adaptedCapacity nc.bandwidth_capacity nc.adaptation_rate
          last_evolution := t })
  else
    (-1, nc)

/-- Mirrors `adapt_neural_channel_capacity` including its nil check. -/
def adapt_neural_channel_capacity (nc : Option NeuralChannel) (t : Int) :
    Int × Option NeuralChannel :=
  match nc with
  | none => (-1, none)
  | some c =>
    let r := adaptCapacityCore c t
    (r.1, some r.2)

/-- Body of `queue_neural_message` for non-nil arguments: append the
message at the tail of the queue (the C code walks `next` pointers to the
tail) and return 0. -/
def queueCore (nc : NeuralChannel) (m : NeuralMessage) : Int × NeuralChannel :=
  (0, { nc with message_queue := nc.message_queue ++ [m] })

/-- Mirrors `queue_neural_message` including its nil checks. -/
def queue_neural_message (nc : Option NeuralChannel) (msg : Option NeuralMessage) :
    Int × Option NeuralChannel :=
  match nc, msg with
  | some c, some m =>
    let r := queueCore c m
    (r.1, some r.2)
  | _, _ => (-1, nc)

/-- Body of `route_neural_message`: the source comments the routing out
and simply queues. -/
def routeCore (nc : NeuralChannel) (m : NeuralMessage) : Int × NeuralChannel :=
  queueCore nc m

/-- Mirrors `route_neural_message`. -/
def route_neural_message (nc : Option NeuralChannel) (msg : Option NeuralMessage) :
    Int × Option NeuralChannel :=
  queue_neural_message nc msg

/-- Body of `send_neural_message` for non-nil arguments.  If
`current_load >= bandwidth_capacity`, try `adapt_neural_channel_capacity`;
on failure queue the message as-is (note: without incrementing
`current_load` and without stamping `timestamp`) and return the queueing
result; otherwise fall through: increment the load, stamp the message
timestamp with `time(NULL)` (here `t`) and route (= queue) it. -/
def sendCore (nc : NeuralChannel) (m : NeuralMessage) (t : Int) : Int × NeuralChannel :=
  if nc.bandwidth_capacity ≤ nc.current_load then
    let a := adaptCapacityCore nc t
    if a.1 < 0 then
      queueCore nc m
    else
      let c2 := { a.2 with current_load := a.2.current_load + 1 }
      routeCore c2 { m with timestamp := t }
  else
    let c2 := { nc with current_load := nc.current_load + 1 }
    routeCore c2 { m with timestamp := t }

/-- Mirrors `send_neural_message` including its nil checks. -/
def send_neural_message (nc : Option NeuralChannel) (msg : Option NeuralMessage)
    (t : Int) : Int × Option NeuralChannel :=
  match nc, msg with
  | some c, some m =>
    let r := sendCore c m t
    (r.1, some r.2)
  | _, _ => (-1, nc)

/-- Body of `receive_neural_message` for a non-nil channel: pop the head
of the queue if any and decrement `current_load` (`ulong` decrement: a
load of 0 wraps to 2^32 - 1). -/
def receiveCore (nc : NeuralChannel) : Option NeuralMessage × NeuralChannel :=
  match nc.message_queue with
  | [] => (none, nc)
  | m :: rest =>
    (some m,
     { nc with
       message_queue := rest
       current_load := if nc.current_load = 0 then ulongMod - 1 else nc.current_load - 1 })

/-- Mirrors `receive_neural_message` including its nil check. -/
def receive_neural_message (nc : Option NeuralChannel) :
    Option NeuralMessage × Option NeuralChannel :=
  match nc with
  | none => (none, none)
  | some c =>
    let r := receiveCore c
    (r.1, some r.2)

/-- Mirrors `create_cognitive_namespace` (allocation assumed to succeed). -/
def create_cognitive_namespace (domain namespace_path : String) (t : Int) :
    CognitiveNamespace :=
  { domain := domain
    namespace_path := namespace_path
    cognitive_load := 0
    last_adaptation := t
    channels := []
    patterns := [] }

/-- Body of `bind_neural_channel_to_namespace` for non-nil arguments: the
source unconditionally grows the array and appends the channel (there is
no presence check), then returns 0. -/
def bindChannelCore (cns : CognitiveNamespace) (nc : NeuralChannel) :
    Int × CognitiveNamespace :=
  (0, { cns with channels := cns.channels ++ [nc] })

/-- Mirrors `bind_neural_channel_to_namespace` including its nil checks
(`realloc` assumed to succeed). -/
def bind_neural_channel_to_namespace (cns : Option CognitiveNamespace)
    (nc : Option NeuralChannel) : Int × Option CognitiveNamespace :=
  match cns, nc with
  | some s, some c =>
    let r := bindChannelCore s c
    (r.1, some r.2)
  | _, _ => (-1, cns)

/-- `total_load` accumulator of `adapt_cognitive_namespace`. -/
def namespaceTotalLoad (chs : List NeuralChannel) : Nat :=
  (chs.map (fun c => c.current_load)).sum

/-- Body of `adapt_cognitive_namespace` for a non-nil namespace.
`avg_load = (float)total_load / channel_count` (0.0 when there are no
channels); `cognitive_load = (int)avg_load` truncates, i.e. floors the
non-negative mean — `Nat` division `total / n` (which is also 0 when
`n = 0`, matching the explicit 0.0 branch).  The trigger
`avg_load > 100.0` is exact as `100 * n < total` for `n < 2^18` and
`total < 2^24` (100.0 is exactly representable; the rounded `float`
quotient exceeds 100.0 iff the exact mean exceeds 100 + 2^-18, and a
mean with denominator n < 2^18 exceeding 100 exceeds 100 + 1/n).  When
triggered, every bound channel is adapted, ignoring individual failures,
and `last_adaptation` is stamped.  Returns 0 in all non-nil cases. -/
def adaptNamespaceCore (cns : CognitiveNamespace) (t : Int) : Int × CognitiveNamespace :=
  let total := namespaceTotalLoad cns.channels
  let n := cns.channels.length
  let cns1 := { cns with cognitive_load := total / n }
  if 100 * n < total then
    (0, { cns1 with
          channels := cns1.channels.map (fun c => (adaptCapacityCore c t).2)
          last_adaptation := t })
  else
    (0, cns1)

/-- Mirrors `adapt_cognitive_namespace` including its nil check. -/
def adapt_cognitive_namespace (cns : Option CognitiveNamespace) (t : Int) :
    Int × Option CognitiveNamespace :=
  match cns with
  | none => (-1, none)
  | some s =>
    let r := adaptNamespaceCore s t
    (r.1, some r.2)

/-- Mirrors `create_cognitive_swarm` (allocation assumed to succeed; the
coordination channel is created with bandwidth 1000; coherence starts at
1.0; the `Pgrp*` argument carries no modelled state). -/
def create_cognitive_swarm (swarm_id domain : String) (t : Int) : CognitiveSwarm :=
  { swarm_id := swarm_id
    domain := domain
    agent_count := 0
    coordination_channel := some (create_neural_channel domain "swarm-coordination" 1000 t)
    coherence_level := 1
    creation_time := t }

/-- Body of `calculate_swarm_coherence` for a non-nil swarm with, exact
over ℚ, the C computation
`base_coherence * load_factor * size_factor` where
`load_factor = 1 - (float)current_load / bandwidth_capacity` when a
coordination channel exists (1.0 otherwise) and
`size_factor = 1 / (1 + agent_count / 10.0)`.  Note: the source applies
NO clamping to `load_factor`.  The result is stored into
`coherence_level` and returned.  ℚ is exact where the C floats round;
the sign and the [0,1] bounds proved below are insensitive to that
rounding.  A coordination channel with `bandwidth_capacity = 0` yields
an infinite/NaN quotient in C and is outside the model's fidelity (no
theorem below evaluates that case). -/
def coherenceCore (swarm : CognitiveSwarm) : ℚ × CognitiveSwarm :=
  if swarm.agent_count = 0 then
    (0, swarm)
  else
    let base_coherence : ℚ := 1
    let load_factor : ℚ :=
      match swarm.coordination_channel with
      | none => 1
      | some ch => 1 - (ch.current_load : ℚ) / (ch.bandwidth_capacity : ℚ)
    let size_factor : ℚ := 1 / (1 + (swarm.agent_count : ℚ) / 10)
    let c := base_coherence * load_factor * size_factor
    (c, { swarm with coherence_level := c })

/-- Mirrors `calculate_swarm_coherence`: nil swarm (or zero agents)
returns 0.0; the nil case does not touch any state. -/
def calculate_swarm_coherence (swarm : Option CognitiveSwarm) :
    ℚ × Option CognitiveSwarm :=
  match swarm with
  | none => (0, none)
  | some s =>
    let r := coherenceCore s
    (r.1, some r.2)

/-- Mirrors `detect_emergent_pattern` (allocation assumed to succeed; the
`domains` array plus `domain_count` become one list, copied into the
pattern; `t` models the three `time(NULL)` calls).  The source has no
registry lookup: every call builds a fresh pattern with
`observation_count = 1` and `significance_score = 0.5`. -/
def detect_emergent_pattern (pattern_name : String) (domains : List String)
    (t : Int) : EmergentPattern :=
  { pattern_id := "pattern-" ++ toString t
    pattern_name := pattern_name
    description := "Emergent pattern observed across " ++ toString domains.length ++ " domains"
    first_observed := t
    last_observed := t
    observation_count := 1
    significance_score := 1 / 2
    involved_domains := domains }

/-- A single channel-facing operation, for stating reachability over
sequences of sends and receives. -/
inductive ChannelOp where
  | send (msg : NeuralMessage) (t : Int)
  | recv
  deriving Repr

/-- State reached after one channel operation (return values dropped). -/
def stepChannel (nc : NeuralChannel) (op : ChannelOp) : NeuralChannel :=
  match op with
  | .send m t => (sendCore nc m t).2
  | .recv => (receiveCore nc).2

/-- State reached after a sequence of channel operations. -/
def runChannel (nc : NeuralChannel) (ops : List ChannelOp) : NeuralChannel :=
  ops.foldl stepChannel nc

/-- Sequential sends of a list of (message, send-time) pairs. -/
def sendAll (nc : NeuralChannel) (ps : List (NeuralMessage × Int)) : NeuralChannel :=
  ps.foldl (fun c p => (sendCore c p.1 p.2).2) nc

/-- The list of results of `n` successive receives. -/
def receiveList (nc : NeuralChannel) : Nat → List (Option NeuralMessage)
  | 0 => []
  | n + 1 =>
    let r := receiveCore nc
    r.1 :: receiveList r.2 n

/-- Sample message used by concrete instances below. -/
def msgA : NeuralMessage :=
  { tag := 1, type := 202, source_domain := "transportation", target_domain := "energy"
    swarm_id := "", cognitive_priority := 80, timestamp := 0, payload_size := 256
    cognitive_payload := 0, confidence_level := 9 / 10 }

/-- Second sample message. -/
def msgB : NeuralMessage :=
  { msgA with tag := 2, cognitive_priority := 10 }

/-- Well-formedness carried by every state reachable from a freshly
created channel of positive bandwidth: the load mirrors the queue length,
the capacity stays positive, and the adaptation rate is the value
installed by `create_neural_channel`. -/
def ChannelWF (nc : NeuralChannel) : Prop :=
  nc.current_load = nc.message_queue.length ∧ 1 ≤ nc.bandwidth_capacity ∧
  nc.adaptation_rate = floatPointOne

lemma floatPointOne_nonneg : (0 : ℚ) ≤ floatPointOne := by norm_num [floatPointOne]

lemma le_adaptedCapacity (cap : Nat) : cap ≤ adaptedCapacity cap floatPointOne := by
  unfold adaptedCapacity
  have h0 : (0 : ℚ) ≤ (cap : ℚ) := Nat.cast_nonneg cap
  have h1 : ((cap : ℤ) : ℚ) ≤ (cap : ℚ) * (1 + floatPointOne) := by
    push_cast
    nlinarith [floatPointOne_nonneg]
  have h2 : (cap : ℤ) ≤ ⌊(cap : ℚ) * (1 + floatPointOne)⌋ := Int.le_floor.mpr h1
  omega

lemma adaptedCapacity_succ_le (cap : Nat) (h : 10 ≤ cap) :
    cap + 1 ≤ adaptedCapacity cap floatPointOne := by
  unfold adaptedCapacity
  have hc : (10 : ℚ) ≤ (cap : ℚ) := by exact_mod_cast h
  have hfp : (1 : ℚ) / 10 ≤ floatPointOne := by norm_num [floatPointOne]
  have h1 : ((cap : ℤ) : ℚ) + 1 ≤ (cap : ℚ) * (1 + floatPointOne) := by
    push_cast
    nlinarith [floatPointOne_nonneg]
  have h2 : ((cap : ℤ) + 1) ≤ ⌊(cap : ℚ) * (1 + floatPointOne)⌋ := by
    apply Int.le_floor.mpr
    push_cast
    push_cast at h1
    linarith
  omega

lemma adaptedCapacity_eq_self (cap : Nat) (h : cap ≤ 9) :
    adaptedCapacity cap floatPointOne = cap := by
  unfold adaptedCapacity
  have hc : (cap : ℚ) ≤ 9 := by exact_mod_cast h
  have h0 : (0 : ℚ) ≤ (cap : ℚ) := Nat.cast_nonneg cap
  have hfloor : ⌊(cap : ℚ) * (1 + floatPointOne)⌋ = (cap : ℤ) := by
    rw [Int.floor_eq_iff]
    constructor
    · push_cast
      nlinarith [floatPointOne_nonneg]
    · push_cast
      nlinarith [floatPointOne_nonneg, mul_le_mul_of_nonneg_right hc floatPointOne_nonneg,
        show (9 : ℚ) * floatPointOne < 1 by norm_num [floatPointOne]]
  rw [hfloor]
  simp

lemma adaptedCapacity_ten : adaptedCapacity 10 floatPointOne = 11 := by
  unfold adaptedCapacity
  have hfloor : ⌊((10 : Nat) : ℚ) * (1 + floatPointOne)⌋ = (11 : ℤ) := by
    rw [Int.floor_eq_iff]
    constructor
    · push_cast
      norm_num [floatPointOne]
    · push_cast
      norm_num [floatPointOne]
  rw [hfloor]
  rfl

lemma loadRatioHigh_of_cap_le_load {load cap : Nat} (h1 : 1 ≤ cap) (h2 : cap ≤ load) :
    loadRatioHigh load cap = true := by
  have hne : ¬ cap = 0 := by omega
  simp only [loadRatioHigh, hne, if_false, decide_eq_true_eq]
  have : 26843545 * cap < 33554432 * cap := by omega
  calc 26843545 * cap < 33554432 * cap := this
    _ ≤ 33554432 * load := Nat.mul_le_mul_left _ h2

lemma loadRatioHigh_eq_false_of {load cap : Nat} (h : 33554432 * load ≤ 26843545 * cap) :
    loadRatioHigh load cap = false := by
  by_cases hc : cap = 0
  · subst hc
    have : load = 0 := by omega
    simp [loadRatioHigh, this]
  · simp only [loadRatioHigh, hc, if_false, decide_eq_false_iff_not]
    omega

lemma adaptCapacityCore_noop (nc : NeuralChannel) (t : Int)
    (h : 33554432 * nc.current_load ≤ 26843545 * nc.bandwidth_capacity) :
    adaptCapacityCore nc t = (-1, nc) := by
  simp [adaptCapacityCore, loadRatioHigh_eq_false_of h]


lemma sendCore_queue (nc : NeuralChannel) (m : NeuralMessage) (t : Int) :
    ∃ m', m'.tag = m.tag ∧
      (sendCore nc m t).2.message_queue = nc.message_queue ++ [m'] := by
  unfold sendCore
  by_cases hc : nc.bandwidth_capacity ≤ nc.current_load
  · simp only [hc, if_true]
    by_cases ha : (adaptCapacityCore nc t).1 < 0
    · simp only [ha, if_true, queueCore]
      exact ⟨m, rfl, rfl⟩
    · simp only [ha, if_false, routeCore, queueCore]
      refine ⟨{ m with timestamp := t }, rfl, ?_⟩
      have hq : (adaptCapacityCore nc t).2.message_queue = nc.message_queue := by
        unfold adaptCapacityCore
        by_cases hh : loadRatioHigh nc.current_load nc.bandwidth_capacity <;> simp [hh]
      simp [hq]
  · simp only [hc, if_false, routeCore, queueCore]
    exact ⟨{ m with timestamp := t }, rfl, rfl⟩

lemma stepChannel_wf {nc : NeuralChannel} (op : ChannelOp) (h : ChannelWF nc) :
    ChannelWF (stepChannel nc op) := by
  obtain ⟨hlen, hcap, hrate⟩ := h
  cases op with
  | send m t =>
    show ChannelWF (sendCore nc m t).2
    unfold sendCore
    by_cases hc : nc.bandwidth_capacity ≤ nc.current_load
    · have hh : loadRatioHigh nc.current_load nc.bandwidth_capacity = true :=
        loadRatioHigh_of_cap_le_load hcap hc
      have hadapt : adaptCapacityCore nc t =
          (0, { nc with
                bandwidth_capacity := adaptedCapacity nc.bandwidth_capacity nc.adaptation_rate
                last_evolution := t }) := by
        simp [adaptCapacityCore, hh]
      simp only [hc, if_true, hadapt]
      norm_num [routeCore, queueCore]
      refine ⟨by simp [hlen], ?_, hrate⟩
      rw [hrate]
      exact le_trans hcap (le_adaptedCapacity _)
    · simp only [hc, if_false, routeCore, queueCore]
      exact ⟨by simp [hlen], hcap, hrate⟩
  | recv =>
    show ChannelWF (receiveCore nc).2
    unfold receiveCore
    cases hq : nc.message_queue with
    | nil => exact ⟨hlen, hcap, hrate⟩
    | cons m rest =>
      have hl : nc.current_load = rest.length + 1 := by
        rw [hlen, hq]; simp
      have hnz : ¬ nc.current_load = 0 := by omega
      simp only [hnz, if_false]
      exact ⟨by simp [hl], hcap, hrate⟩

lemma runChannel_wf (ops : List ChannelOp) {nc : NeuralChannel} (h : ChannelWF nc) :
    ChannelWF (runChannel nc ops) := by
  induction ops generalizing nc with
  | nil => exact h
  | cons op ops ih => exact ih (stepChannel_wf op h)

lemma sendAll_tags (ps : List (NeuralMessage × Int)) (nc : NeuralChannel) :
    (sendAll nc ps).message_queue.map (fun m => m.tag)
      = nc.message_queue.map (fun m => m.tag) ++ ps.map (fun p => p.1.tag) := by
  induction ps generalizing nc with
  | nil => simp [sendAll]
  | cons p ps ih =>
    obtain ⟨m', hm', hq⟩ := sendCore_queue nc p.1 p.2
    have : sendAll nc (p :: ps) = sendAll (sendCore nc p.1 p.2).2 ps := rfl
    rw [this, ih, hq]
    simp [hm']

lemma receiveList_drain (q : List NeuralMessage) (nc : NeuralChannel)
    (h : nc.message_queue = q) : receiveList nc q.length = q.map some := by
  induction q generalizing nc with
  | nil => simp [receiveList]
  | cons m rest ih =>
    have hrecv : receiveCore nc =
        (some m,
         { nc with
           message_queue := rest
           current_load := if nc.current_load = 0 then ulongMod - 1 else nc.current_load - 1 }) := by
      unfold receiveCore
      rw [h]
    show receiveList nc (rest.length + 1) = some m :: rest.map some
    unfold receiveList
    rw [hrecv]
    simp only
    rw [ih _ rfl]

lemma size_factor_bounds (n : Nat) :
    0 ≤ (1 : ℚ) / (1 + (n : ℚ) / 10) ∧ (1 : ℚ) / (1 + (n : ℚ) / 10) ≤ 1 := by
  have h0 : (0 : ℚ) ≤ (n : ℚ) := Nat.cast_nonneg n
  constructor
  · positivity
  · rw [div_le_one (by positivity)]
    linarith

/-- C1 (counterexample): `detect_emergent_pattern` has no registry lookup,
so calling Detect twice with the same name yields two fresh records, each
with `observation_count = 1` and `significance_score = 0.5` — not a single
record with count 2 and significance 0.55. -/
theorem c1_counterexample :
    (detect_emergent_pattern "X" ["a", "b"] 0).observation_count = 1 ∧
    (detect_emergent_pattern "X" ["a", "b"] 1).observation_count = 1 ∧
    ¬ (detect_emergent_pattern "X" ["a", "b"] 1).observation_count = 2 ∧
    (detect_emergent_pattern "X" ["a", "b"] 1).significance_score = 1 / 2 ∧
    ¬ (detect_emergent_pattern "X" ["a", "b"] 1).significance_score = 11 / 20 ∧
    (detect_emergent_pattern "X" ["a", "b"] 0).first_observed ≠
      (detect_emergent_pattern "X" ["a", "b"] 1).first_observed := by
  refine ⟨rfl, rfl, by decide, rfl, ?_, by decide⟩
  norm_num [detect_emergent_pattern]

/-- C1 (amended): every call of `detect_emergent_pattern` creates a fresh
pattern record with `observation_count = 1`, `significance_score = 0.5`
and both observation stamps equal to the call time; re-detection of an
existing name neither updates any record in place nor changes these
initial values. -/
theorem c1_theorem (name : String) (domains : List String) (t : Int) :
    (detect_emergent_pattern name domains t).observation_count = 1 ∧
    (detect_emergent_pattern name domains t).significance_score = 1 / 2 ∧
    (detect_emergent_pattern name domains t).first_observed = t ∧
    (detect_emergent_pattern name domains t).last_observed = t ∧
    (detect_emergent_pattern name domains t).pattern_name = name ∧
    (detect_emergent_pattern name domains t).involved_domains = domains :=
  ⟨rfl, rfl, rfl, rfl, rfl, rfl⟩

/-- C2 (counterexample): a Send taken on the over-capacity path with
adaptation declined (reachable at bandwidth 0, where the NaN load ratio
fails the high-load test) returns 0 — the very same status value as a
plain under-capacity Send — so no distinct Queued-Over-Capacity status
exists. -/
theorem c2_counterexample :
    (create_neural_channel "a" "b" 0 0).bandwidth_capacity ≤
      (create_neural_channel "a" "b" 0 0).current_load ∧
    (adaptCapacityCore (create_neural_channel "a" "b" 0 0) 5).1 < 0 ∧
    (sendCore (create_neural_channel "a" "b" 0 0) msgA 5).1 = 0 ∧
    (create_neural_channel "a" "b" 10 0).current_load <
      (create_neural_channel "a" "b" 10 0).bandwidth_capacity ∧
    (sendCore (create_neural_channel "a" "b" 10 0) msgA 5).1 = 0 :=
  ⟨by decide, by decide, by decide, by decide, by decide⟩

/-- C2 (amended): when Send runs with `current_load >= bandwidth_capacity`
and the capacity adaptation declines, the message is still enqueued at the
tail of the queue (never dropped), but the returned status is 0 —
identical to the plain-success value — and on this path `current_load` is
not incremented and the message timestamp is not stamped. -/
theorem c2_theorem (nc : NeuralChannel) (m : NeuralMessage) (t : Int)
    (hover : nc.bandwidth_capacity ≤ nc.current_load)
    (hdecl : (adaptCapacityCore nc t).1 < 0) :
    sendCore nc m t = (0, { nc with message_queue := nc.message_queue ++ [m] }) := by
  unfold sendCore
  simp only [hover, if_true]
  simp only [if_pos hdecl]
  rfl

/-- C2 witness: the amended statement instantiated at a freshly created
bandwidth-0 channel. -/
theorem c2_theorem_witness :
    (create_neural_channel "a" "b" 0 0).bandwidth_capacity ≤
      (create_neural_channel "a" "b" 0 0).current_load ∧
    (adaptCapacityCore (create_neural_channel "a" "b" 0 0) 5).1 < 0 ∧
    sendCore (create_neural_channel "a" "b" 0 0) msgA 5 =
      (0, { create_neural_channel "a" "b" 0 0 with
            message_queue := (create_neural_channel "a" "b" 0 0).message_queue ++ [msgA] }) :=
  ⟨by decide, by decide, c2_theorem _ msgA 5 (by decide) (by decide)⟩

/-- C3 (counterexample): from a freshly created channel of bandwidth 0,
one Send takes the over-capacity path with adaptation declined and
enqueues without incrementing the load, so `current_load` (0) differs
from the queue length (1). -/
theorem c3_counterexample :
    ¬ ((runChannel (create_neural_channel "a" "b" 0 0) [ChannelOp.send msgA 1]).current_load
        = (runChannel (create_neural_channel "a" "b" 0 0)
            [ChannelOp.send msgA 1]).message_queue.length) := by
  decide

/-- C3 (amended): for every channel freshly created with positive
bandwidth, every state reachable by any sequence of Send and Receive
calls satisfies `current_load = length of the message queue` (with
positive capacity the over-capacity declined path is unreachable, since
a load at or above capacity always passes the high-load test). -/
theorem c3_theorem (src dst : String) (bandwidth : Nat) (tc : Int)
    (ops : List ChannelOp) (hpos : 1 ≤ bandwidth) :
    (runChannel (create_neural_channel src dst bandwidth tc) ops).current_load
      = (runChannel (create_neural_channel src dst bandwidth tc) ops).message_queue.length := by
  have h0 : ChannelWF (create_neural_channel src dst bandwidth tc) := ⟨rfl, hpos, rfl⟩
  exact (runChannel_wf ops h0).1

/-- C3 witness: the invariant instantiated on a bandwidth-2 channel run
through two sends, a receive and a further send (the last send exercises
the over-capacity adaptation-success path). -/
theorem c3_theorem_witness :
    1 ≤ 2 ∧
    (runChannel (create_neural_channel "a" "b" 2 0)
        [ChannelOp.send msgA 1, ChannelOp.send msgB 2, ChannelOp.recv,
         ChannelOp.send msgA 3]).current_load
      = (runChannel (create_neural_channel "a" "b" 2 0)
        [ChannelOp.send msgA 1, ChannelOp.send msgB 2, ChannelOp.recv,
         ChannelOp.send msgA 3]).message_queue.length :=
  ⟨by decide, c3_theorem "a" "b" 2 0 _ (by decide)⟩

/-- C4 (confirmed): strict per-channel FIFO — starting from a channel
with an empty queue, N sends of messages M1..MN followed by N receives
return the messages in the send order (every send path appends exactly
one message at the tail, preserving the tag; receive pops the head). -/
theorem c4_theorem (nc : NeuralChannel) (ps : List (NeuralMessage × Int))
    (hempty : nc.message_queue = []) :
    (receiveList (sendAll nc ps) ps.length).map (Option.map (fun m => m.tag))
      = ps.map (fun p => some p.1.tag) := by
  have htags := sendAll_tags ps nc
  rw [hempty] at htags
  simp only [List.map_nil, List.nil_append] at htags
  have hlen : (sendAll nc ps).message_queue.length = ps.length := by
    have := congrArg List.length htags
    simpa using this
  have hdrain : receiveList (sendAll nc ps) (sendAll nc ps).message_queue.length
      = (sendAll nc ps).message_queue.map some :=
    receiveList_drain _ _ rfl
  rw [hlen] at hdrain
  rw [hdrain]
  calc ((sendAll nc ps).message_queue.map some).map (Option.map (fun m => m.tag))
      = ((sendAll nc ps).message_queue.map (fun m => m.tag)).map some := by
        simp [List.map_map, Function.comp]
    _ = (ps.map (fun p => p.1.tag)).map some := by rw [htags]
    _ = ps.map (fun p => some p.1.tag) := by simp [List.map_map, Function.comp]

/-- C4 witness: the FIFO property instantiated on a fresh bandwidth-10
channel with two sends and two receives. -/
theorem c4_theorem_witness :
    (create_neural_channel "a" "b" 10 0).message_queue = [] ∧
    (receiveList (sendAll (create_neural_channel "a" "b" 10 0) [(msgA, 1), (msgB, 2)])
        [(msgA, 1), (msgB, 2)].length).map (Option.map (fun m => m.tag))
      = [(msgA, 1), (msgB, 2)].map (fun p => some p.1.tag) :=
  ⟨rfl, c4_theorem _ _ rfl⟩

/-- C5 (counterexample): at capacity 5 and load 5 (load ratio 1.0 > 0.8)
the adaptation computes `5 * 1.1` and the `ulong` assignment truncates it
back to 5 — the new capacity is not at least `capacity + 1` and is not
strictly greater than the old capacity. -/
theorem c5_counterexample :
    loadRatioHigh 5 5 = true ∧
    (adaptCapacityCore { create_neural_channel "a" "b" 5 0 with current_load := 5 }
        1).2.bandwidth_capacity = 5 ∧
    ¬ (5 + 1 ≤ (adaptCapacityCore { create_neural_channel "a" "b" 5 0 with current_load := 5 }
        1).2.bandwidth_capacity) := by
  have h5 : adaptedCapacity 5 floatPointOne = 5 := adaptedCapacity_eq_self 5 (by omega)
  have hcap : (adaptCapacityCore { create_neural_channel "a" "b" 5 0 with current_load := 5 }
      1).2.bandwidth_capacity = 5 := by
    simp [adaptCapacityCore, create_neural_channel, loadRatioHigh, h5]
  exact ⟨by decide, hcap, by omega⟩

/-- C5 (amended): when the load ratio is high, `adapt_neural_channel_capacity`
sets the capacity to `floor(c * (1 + adaptationRate))` (truncation, not
round-up).  The new capacity never decreases, but it is strictly greater
than the old one iff `c >= 10`; for `1 <= c <= 9` the truncation leaves
the capacity unchanged. -/
theorem c5_theorem (nc : NeuralChannel) (t : Int)
    (hrate : nc.adaptation_rate = floatPointOne)
    (hhigh : loadRatioHigh nc.current_load nc.bandwidth_capacity = true) :
    (adaptCapacityCore nc t).2.bandwidth_capacity
        = adaptedCapacity nc.bandwidth_capacity floatPointOne ∧
    nc.bandwidth_capacity ≤ (adaptCapacityCore nc t).2.bandwidth_capacity ∧
    (10 ≤ nc.bandwidth_capacity →
      nc.bandwidth_capacity + 1 ≤ (adaptCapacityCore nc t).2.bandwidth_capacity) ∧
    (nc.bandwidth_capacity ≤ 9 →
      (adaptCapacityCore nc t).2.bandwidth_capacity = nc.bandwidth_capacity) := by
  have hres : (adaptCapacityCore nc t).2.bandwidth_capacity
      = adaptedCapacity nc.bandwidth_capacity floatPointOne := by
    simp [adaptCapacityCore, hhigh, hrate]
  refine ⟨hres, ?_, ?_, ?_⟩
  · rw [hres]
    exact le_adaptedCapacity _
  · intro h
    rw [hres]
    exact adaptedCapacity_succ_le _ h
  · intro h
    rw [hres]
    exact adaptedCapacity_eq_self _ h

/-- C5 witness: the amended statement at capacity 10, load 10, where the
growth is strict (10 becomes 11). -/
theorem c5_theorem_witness :
    ({ create_neural_channel "a" "b" 10 0 with
        current_load := 10 } : NeuralChannel).adaptation_rate = floatPointOne ∧
    loadRatioHigh ({ create_neural_channel "a" "b" 10 0 with
        current_load := 10 } : NeuralChannel).current_load
      ({ create_neural_channel "a" "b" 10 0 with
        current_load := 10 } : NeuralChannel).bandwidth_capacity = true ∧
    10 ≤ ({ create_neural_channel "a" "b" 10 0 with
        current_load := 10 } : NeuralChannel).bandwidth_capacity ∧
    ({ create_neural_channel "a" "b" 10 0 with
        current_load := 10 } : NeuralChannel).bandwidth_capacity + 1
      ≤ (adaptCapacityCore { create_neural_channel "a" "b" 10 0 with
          current_load := 10 } 3).2.bandwidth_capacity :=
  ⟨rfl, by decide, by decide,
    (c5_theorem _ 3 rfl (by decide)).2.2.1 (by decide)⟩

/-- C6 (counterexample): at capacity 5 and load 4 the exact load ratio is
4/5 = 0.8, which the claim places in the no-op regime (`loadRatio <= 0.8`),
yet the code adapts: the `float` quotient 4.0f/5.0f rounds to
0.80000001..., which exceeds the `double` constant 0.8, so the call
returns success (0) and updates `last_evolution` from 0 to 1 instead of
returning the "no adaptation needed" result. -/
theorem c6_counterexample :
    (4 : ℚ) / 5 ≤ 8 / 10 ∧
    (adaptCapacityCore { create_neural_channel "a" "b" 5 0 with current_load := 4 } 1).1 = 0 ∧
    ¬ ((adaptCapacityCore { create_neural_channel "a" "b" 5 0 with
        current_load := 4 } 1).1 = -1) ∧
    ({ create_neural_channel "a" "b" 5 0 with
        current_load := 4 } : NeuralChannel).last_evolution = 0 ∧
    (adaptCapacityCore { create_neural_channel "a" "b" 5 0 with
        current_load := 4 } 1).2.last_evolution = 1 :=
  ⟨by norm_num, by decide, by decide, rfl, by decide⟩

/-- C6 (amended): with the program's adaptation rate the capacity never
decreases; a call whose `float` load ratio does not exceed the `double`
constant 0.8 (exactly: `33554432 * load <= 26843545 * capacity`) is a
no-op returning the "no adaptation needed" result -1 with every field
unchanged; for capacities up to 11184810 this covers exactly the ratios
strictly below 4/5, but a ratio of exactly 4/5 triggers adaptation. -/
theorem c6_theorem (nc : NeuralChannel) (t : Int)
    (hrate : nc.adaptation_rate = floatPointOne) :
    nc.bandwidth_capacity ≤ (adaptCapacityCore nc t).2.bandwidth_capacity ∧
    (33554432 * nc.current_load ≤ 26843545 * nc.bandwidth_capacity →
      adaptCapacityCore nc t = (-1, nc)) ∧
    (nc.bandwidth_capacity ≤ 11184810 →
      5 * nc.current_load < 4 * nc.bandwidth_capacity →
      adaptCapacityCore nc t = (-1, nc)) := by
  refine ⟨?_, ?_, ?_⟩
  · unfold adaptCapacityCore
    by_cases hh : loadRatioHigh nc.current_load nc.bandwidth_capacity
    · simp only [hh, if_true]
      rw [hrate]
      exact le_adaptedCapacity _
    · simp [hh]
  · intro h
    exact adaptCapacityCore_noop nc t h
  · intro hcap hlt
    apply adaptCapacityCore_noop
    omega

/-- C6 witness: the amended statement at capacity 10, load 7 (ratio 0.7,
strictly below the threshold), where the call is a no-op. -/
theorem c6_theorem_witness :
    ({ create_neural_channel "a" "b" 10 0 with
        current_load := 7 } : NeuralChannel).adaptation_rate = floatPointOne ∧
    33554432 * ({ create_neural_channel "a" "b" 10 0 with
        current_load := 7 } : NeuralChannel).current_load
      ≤ 26843545 * ({ create_neural_channel "a" "b" 10 0 with
        current_load := 7 } : NeuralChannel).bandwidth_capacity ∧
    adaptCapacityCore { create_neural_channel "a" "b" 10 0 with current_load := 7 } 7
      = (-1, { create_neural_channel "a" "b" 10 0 with current_load := 7 }) :=
  ⟨rfl, by decide, (c6_theorem _ 7 rfl).2.1 (by decide)⟩

/-- C7 (confirmed): `adapt_cognitive_namespace` sets `cognitive_load` to
the floor of the mean channel load (0 when no channels are bound), and
runs the per-channel capacity adaptation on every bound channel iff the
mean is strictly greater than 100 (total > 100 * count), stamping
`last_adaptation` when it does; the cascade ignores individual channel
adaptation failures (the map keeps going regardless of each result).  The
call returns 0 for every non-nil namespace. -/
theorem c7_theorem (cns : CognitiveNamespace) (t : Int) :
    (adaptNamespaceCore cns t).1 = 0 ∧
    (adaptNamespaceCore cns t).2.cognitive_load
      = namespaceTotalLoad cns.channels / cns.channels.length ∧
    (cns.channels = [] → (adaptNamespaceCore cns t).2.cognitive_load = 0) ∧
    (100 * cns.channels.length < namespaceTotalLoad cns.channels →
      (adaptNamespaceCore cns t).2.channels
          = cns.channels.map (fun c => (adaptCapacityCore c t).2) ∧
      (adaptNamespaceCore cns t).2.last_adaptation = t) ∧
    (¬ 100 * cns.channels.length < namespaceTotalLoad cns.channels →
      (adaptNamespaceCore cns t).2.channels = cns.channels ∧
      (adaptNamespaceCore cns t).2.last_adaptation = cns.last_adaptation) := by
  by_cases htrig : 100 * cns.channels.length < namespaceTotalLoad cns.channels
  · refine ⟨?_, ?_, ?_, fun _ => ⟨?_, ?_⟩, fun h => absurd htrig h⟩ <;>
      simp [adaptNamespaceCore, htrig]
    intro h
    simp [h, namespaceTotalLoad]
  · refine ⟨?_, ?_, ?_, fun h => absurd h htrig, fun _ => ⟨?_, ?_⟩⟩ <;>
      simp [adaptNamespaceCore, htrig]
    intro h
    simp [h]

/-- C7 witness: a namespace with two channels at loads 150 and 50 (mean
exactly 100) does not trigger cascading adaptation. -/
theorem c7_theorem_witness :
    ¬ (100 * ({ create_cognitive_namespace "d" "/p" 0 with
          channels := [{ create_neural_channel "a" "b" 200 0 with current_load := 150 },
                       { create_neural_channel "a" "b" 200 0 with
                         current_load := 50 }] } : CognitiveNamespace).channels.length
        < namespaceTotalLoad ({ create_cognitive_namespace "d" "/p" 0 with
          channels := [{ create_neural_channel "a" "b" 200 0 with current_load := 150 },
                       { create_neural_channel "a" "b" 200 0 with
                         current_load := 50 }] } : CognitiveNamespace).channels) ∧
    (adaptNamespaceCore { create_cognitive_namespace "d" "/p" 0 with
        channels := [{ create_neural_channel "a" "b" 200 0 with current_load := 150 },
                     { create_neural_channel "a" "b" 200 0 with
                       current_load := 50 }] } 9).2.channels
      = ({ create_cognitive_namespace "d" "/p" 0 with
          channels := [{ create_neural_channel "a" "b" 200 0 with current_load := 150 },
                       { create_neural_channel "a" "b" 200 0 with
                         current_load := 50 }] } : CognitiveNamespace).channels :=
  ⟨by decide,
    ((c7_theorem { create_cognitive_namespace "d" "/p" 0 with
        channels := [{ create_neural_channel "a" "b" 200 0 with current_load := 150 },
                     { create_neural_channel "a" "b" 200 0 with
                       current_load := 50 }] } 9).2.2.2.2 (by decide)).1⟩

/-- C8 (counterexample): the source applies no clamping to the load
factor, so a swarm of one agent whose coordination channel carries load 2
against capacity 1 gets coherence 1 * (1 - 2/1) * (1/(1 + 1/10)) =
-10/11 < 0, outside the claimed [0, 1] interval. -/
theorem c8_counterexample :
    (coherenceCore
        { create_cognitive_swarm "s" "d" 0 with
          agent_count := 1
          coordination_channel :=
            some { create_neural_channel "d" "swarm-coordination" 1 0 with
                   current_load := 2 } }).1 < 0 := by
  norm_num [coherenceCore, create_cognitive_swarm, create_neural_channel]

/-- C8 (amended): `calculate_swarm_coherence` returns exactly 0 for a
swarm with zero agents; with no coordination channel, or with a
coordination channel of positive capacity whose load does not exceed its
capacity, the result lies in [0, 1]; but the load factor is not clamped,
so an over-capacity coordination channel can drive the result negative. -/
theorem c8_theorem (swarm : CognitiveSwarm) :
    (swarm.agent_count = 0 → (coherenceCore swarm).1 = 0) ∧
    (swarm.coordination_channel = none →
      0 ≤ (coherenceCore swarm).1 ∧ (coherenceCore swarm).1 ≤ 1) ∧
    (∀ ch, swarm.coordination_channel = some ch →
      1 ≤ ch.bandwidth_capacity → ch.current_load ≤ ch.bandwidth_capacity →
      0 ≤ (coherenceCore swarm).1 ∧ (coherenceCore swarm).1 ≤ 1) := by
  have hsf := size_factor_bounds swarm.agent_count
  refine ⟨fun h => by simp [coherenceCore, h], fun hnone => ?_, fun ch hch hcap hload => ?_⟩
  · by_cases hn : swarm.agent_count = 0
    · simp [coherenceCore, hn]
    · simp only [coherenceCore, hn, if_false, hnone]
      constructor
      · nlinarith [hsf.1, hsf.2]
      · nlinarith [hsf.1, hsf.2]
  · by_cases hn : swarm.agent_count = 0
    · simp [coherenceCore, hn]
    · have hcapQ : (1 : ℚ) ≤ (ch.bandwidth_capacity : ℚ) := by exact_mod_cast hcap
      have hloadQ : (ch.current_load : ℚ) ≤ (ch.bandwidth_capacity : ℚ) := by
        exact_mod_cast hload
      have hload0 : (0 : ℚ) ≤ (ch.current_load : ℚ) := Nat.cast_nonneg _
      have hlf0 : 0 ≤ 1 - (ch.current_load : ℚ) / (ch.bandwidth_capacity : ℚ) := by
        have : (ch.current_load : ℚ) / (ch.bandwidth_capacity : ℚ) ≤ 1 := by
          rw [div_le_one (by linarith)]
          exact hloadQ
        linarith
      have hlf1 : 1 - (ch.current_load : ℚ) / (ch.bandwidth_capacity : ℚ) ≤ 1 := by
        have : 0 ≤ (ch.current_load : ℚ) / (ch.bandwidth_capacity : ℚ) := by positivity
        linarith
      simp only [coherenceCore, hn, if_false, hch]
      constructor
      · nlinarith [hsf.1, hsf.2]
      · nlinarith [hsf.1, hsf.2]

/-- C8 witness: the amended statement at a two-agent swarm whose
coordination channel holds load 1 against capacity 2. -/
theorem c8_theorem_witness :
    1 ≤ ({ create_neural_channel "d" "swarm-coordination" 2 0 with
        current_load := 1 } : NeuralChannel).bandwidth_capacity ∧
    ({ create_neural_channel "d" "swarm-coordination" 2 0 with
        current_load := 1 } : NeuralChannel).current_load
      ≤ ({ create_neural_channel "d" "swarm-coordination" 2 0 with
        current_load := 1 } : NeuralChannel).bandwidth_capacity ∧
    (0 ≤ (coherenceCore { create_cognitive_swarm "s" "d" 0 with
        agent_count := 2
        coordination_channel :=
          some { create_neural_channel "d" "swarm-coordination" 2 0 with
                 current_load := 1 } }).1 ∧
      (coherenceCore { create_cognitive_swarm "s" "d" 0 with
        agent_count := 2
        coordination_channel :=
          some { create_neural_channel "d" "swarm-coordination" 2 0 with
                 current_load := 1 } }).1 ≤ 1) :=
  ⟨by decide, by decide,
    (c8_theorem _).2.2 _ rfl (by decide) (by decide)⟩

/-- C9 (counterexample): binding the same channel twice appends it twice
— the namespace ends with two entries (the channel appears twice), not an
unchanged set. -/
theorem c9_counterexample :
    (bindChannelCore (bindChannelCore (create_cognitive_namespace "d" "/p" 0)
        (create_neural_channel "a" "b" 7 0)).2
        (create_neural_channel "a" "b" 7 0)).2.channels
      = [create_neural_channel "a" "b" 7 0, create_neural_channel "a" "b" 7 0] ∧
    ¬ ((bindChannelCore (bindChannelCore (create_cognitive_namespace "d" "/p" 0)
        (create_neural_channel "a" "b" 7 0)).2
        (create_neural_channel "a" "b" 7 0)).2.channels
      = (bindChannelCore (create_cognitive_namespace "d" "/p" 0)
        (create_neural_channel "a" "b" 7 0)).2.channels) := by
  refine ⟨rfl, fun h => ?_⟩
  have := congrArg List.length h
  simp [bindChannelCore, create_cognitive_namespace] at this

/-- C9 (amended): `bind_neural_channel_to_namespace` appends the channel
unconditionally — there is no presence check, so re-binding a channel
already in the set duplicates it; a nil channel (or nil namespace) fails
with -1 without modifying anything. -/
theorem c9_theorem (cns : CognitiveNamespace) (nc : NeuralChannel) :
    bind_neural_channel_to_namespace (some cns) (some nc)
      = (0, some { cns with channels := cns.channels ++ [nc] }) ∧
    bind_neural_channel_to_namespace (some cns) none = (-1, some cns) ∧
    bind_neural_channel_to_namespace none (some nc) = (-1, none) ∧
    bind_neural_channel_to_namespace none none = (-1, none) :=
  ⟨rfl, rfl, rfl, rfl⟩

/-- C10 (confirmed): every modelled operation is total on nil inputs and
fails without side effects: Send and Queue return -1 when the channel or
message is nil, Receive returns the empty result on a nil channel, and
both adaptation entry points return -1 on nil — in each case the non-nil
argument (if any) is returned unchanged. -/
theorem c10_theorem (c : NeuralChannel) (m : NeuralMessage) (t : Int) :
    send_neural_message none (some m) t = (-1, none) ∧
    send_neural_message (some c) none t = (-1, some c) ∧
    send_neural_message none none t = (-1, none) ∧
    queue_neural_message none (some m) = (-1, none) ∧
    queue_neural_message (some c) none = (-1, some c) ∧
    queue_neural_message none none = (-1, none) ∧
    receive_neural_message none = (none, none) ∧
    adapt_neural_channel_capacity none t = (-1, none) ∧
    adapt_cognitive_namespace none t = (-1, none) :=
  ⟨rfl, rfl, rfl, rfl, rfl, rfl, rfl, rfl, rfl⟩
